import Mathlib

/-
Verification of the hbsdecipher-go deciphering engine.

Shallow embedding conventions:
* Byte streams and buffers are `List Nat` (each element one byte value).
* The AES block primitive and digest functions are external library code
  (crypto/aes, crypto/md5); they are passed as explicit function parameters,
  so every theorem quantifies over the block cipher / digest.
* File-system effects (creating the output file, creating / seeking /
  removing the temporary file) are modelled by explicit boolean parameters
  describing whether the effectful call succeeds, and by boolean fields
  recording which effects happened.
* Fallible Go functions returning (value, error) become `Option`, `Except`
  or a value paired with an error flag.
-/

namespace Hbs

/-- Block size of the cipher, `BlockSize` in decipher.go. -/
def BlockSize : Nat := 16

/-- The 8-byte OpenSSL magic, bytes of the ASCII string Salted__. -/
def OpenSSLPrefix : List Nat := [83, 97, 108, 116, 101, 100, 95, 95]

/-- Magic prefix of the legacy v1 QNAP format (`QNAPFilePrefixV1Bytes`). -/
def QNAPFilePrefixV1Bytes : List Nat := [7, 95, 95, 81, 67, 83, 95, 95]

/-- Magic prefix of the versioned v2 QNAP format (`QNAPFilePrefixV2Bytes`). -/
def QNAPFilePrefixV2Bytes : List Nat := [75, 202, 148, 114, 94, 131, 28, 49]

/-- Mirror of the Go struct `fileType`: a compressed flag and an encrypt
version (-1 unrecognized, 0 OpenSSL/generic salted, 1 legacy v1, 2 versioned v2). -/
structure fileType where
  compressed : Bool
  encryptVersion : Int
deriving DecidableEq, Repr

/-- Mirror of `checkCipheredFile` (decipher.go lines 317-357): classify a
stream from its leading bytes.  Reading fewer than 8 magic bytes, or fewer
than 2 option bytes after the v2 magic, yields version -1; the compressed
flag of a v2 file is byte 9 of the stream compared with 1. -/
def checkCipheredFile (s : List Nat) : fileType :=
  if s.length < 8 then { compressed := false, encryptVersion := -1 }
  else if s.take 8 = OpenSSLPrefix then { compressed := false, encryptVersion := 0 }
  else if s.take 8 = QNAPFilePrefixV1Bytes then { compressed := false, encryptVersion := 1 }
  else if s.take 8 = QNAPFilePrefixV2Bytes then
    if s.length < 10 then { compressed := false, encryptVersion := -1 }
    else { compressed := decide (s.getD 9 0 = 1), encryptVersion := 2 }
  else { compressed := false, encryptVersion := -1 }

/-- DecipherFile (decipher.go line 100) creates the plain output file exactly
when the detected encrypt version is nonnegative. -/
def opensPlainFile (ft : fileType) : Bool := decide (0 ≤ ft.encryptVersion)

/-- The four routes of the switch in `DecipherFile` (decipher.go lines 110-133).
`unsupportedV1` is the error wrapping `NoCipherFile` with the
"HBS cipher type 1 is currently not supported" message; `noCipherFile` is the
bare `NoCipherFile` error of the default branch. -/
inductive TopResult where
  | noCipherFile
  | unsupportedV1
  | runOpenSSL
  | runV2 (compressed : Bool)
deriving DecidableEq, Repr

/-- The switch of `DecipherFile` on the detected file type. -/
def dispatch (ft : fileType) : TopResult :=
  if ft.encryptVersion = 0 then .runOpenSSL
  else if ft.encryptVersion = 1 then .unsupportedV1
  else if ft.encryptVersion = 2 then .runV2 ft.compressed
  else .noCipherFile

/-- Which route `DecipherFile` takes for a given input stream.  The request
password plays no role in format detection or routing; it is an explicit
argument here only so that independence from it can be stated. -/
def DecipherFileRoute (s : List Nat) (_requestPassword : List Nat) : TopResult :=
  dispatch (checkCipheredFile s)

/-- Mirror of `PKCS5Trimming` (decipher.go lines 305-315): the padding length
is the value of the last byte; the function errors iff that value is at least
the buffer length or exceeds the block size, and otherwise strips that many
trailing bytes.  The Go code indexes src[len-1] and would crash on an empty
buffer; every caller passes a non-empty buffer and the theorems below carry
that hypothesis. -/
def PKCS5Trimming (src : List Nat) (blockSize : Nat) : Option (List Nat) :=
  if src.length ≤ src.getLastD 0 ∨ blockSize < src.getLastD 0 then none
  else some (src.take (src.length - src.getLastD 0))

/-- One step of CBC block decryption as performed by `cipher.NewCBCDecrypter`:
blocks of 16 ciphertext bytes are decrypted with the block primitive `dec`
and xored with the previous ciphertext block (initially the IV); the second
component of the result is the chaining state after the buffer, i.e. the last
ciphertext block processed.  Structural fuel recursion: callers pass
`fuel ≥ src.length`, which always suffices since every step consumes at least
one byte. -/
def cbcGo (dec : List Nat → List Nat) : Nat → List Nat → List Nat → List Nat × List Nat
  | 0, prev, _ => ([], prev)
  | fuel + 1, prev, src =>
    if src = [] then ([], prev)
    else
      let c := src.take 16
      let r := cbcGo dec fuel c (src.drop 16)
      (List.zipWith Nat.xor (dec c) prev ++ r.1, r.2)

/-- CBC decryption of a whole buffer (`ecb.CryptBlocks` in decipher.go),
returning the plaintext and the chaining state after the buffer. -/
def cbcBlocks (dec : List Nat → List Nat) (prev src : List Nat) : List Nat × List Nat :=
  cbcGo dec src.length prev src

/-- Mirror of the read/decrypt loop of `doDecipher` (decipher.go lines
265-298).  `body` is the remaining ciphertext; each 256-byte read that fills
the buffer is decrypted and emitted in full; a shorter, final read must be a
nonzero multiple of 16 and is decrypted and PKCS5-trimmed; a read at
end-of-stream returns an error (the Go loop turns every read error, including
a clean end-of-stream, into a decipher error).  The result is the bytes
written so far paired with the error flag.  Structural fuel recursion with
`fuel ≥ body.length`. -/
def doDecipherGo (dec : List Nat → List Nat) : Nat → List Nat → List Nat → List Nat × Bool
  | 0, _, _ => ([], true)
  | fuel + 1, iv, body =>
    if body.length = 0 then ([], true)
    else if body.length < 256 then
      if body.length % 16 ≠ 0 then ([], true)
      else
        match PKCS5Trimming (cbcBlocks dec iv body).1 16 with
        | none => ([], true)
        | some t => (t, false)
    else
      let r := cbcBlocks dec iv (body.take 256)
      let rest := doDecipherGo dec fuel r.2 (body.drop 256)
      (r.1 ++ rest.1, rest.2)

/-- Mirror of `doDecipher` (decipher.go lines 245-303): stream decrypt of a
ciphertext body with block decryptor `dec` and initial chaining value `iv`.
Returns the emitted plaintext bytes and an error flag (`true` = the Go
function returned a non-nil error). -/
def doDecipher (dec : List Nat → List Nat) (iv body : List Nat) : List Nat × Bool :=
  doDecipherGo dec body.length iv body

/-- Key stretching of `decipherV2Header` (decipher.go lines 366-367):
iter := 1 + 32/len(password); passwordFinal := Repeat(password, iter)[0:32]. -/
def stretchPassword (pw : List Nat) : List Nat :=
  ((List.replicate (1 + 32 / pw.length) pw).flatten).take 32

/-- Total wrapper for the key-stretch step: the Go expression divides by the
password length, so an empty password makes the process crash with a runtime
division-by-zero; this is modelled as `none`, every other input yields the
stretched key. -/
def keyStretch (pw : List Nat) : Option (List Nat) :=
  if pw.length = 0 then none else some (stretchPassword pw)

/-- Big-endian interpretation of a byte list, as `binary.BigEndian.Uint64`
reads the 8 size bytes. -/
def beUint64 (l : List Nat) : Nat := l.foldl (fun a b => a * 256 + b) 0

/-- Mirror of the Go struct `encryptHeader`: expected plain size, content key
and content IV (the IV is stored in the `salt` field, as in the source). -/
structure encryptHeader where
  size : Nat
  ckey : List Nat
  salt : List Nat
deriving DecidableEq, Repr

/-- Outcome of `decipherV2Header`: `crashed` is the runtime
division-by-zero on an empty password (the function never returns), `failed`
is a returned error (short read), `ok` carries the header. -/
inductive HeaderOutcome where
  | crashed
  | failed
  | ok (h : encryptHeader)
deriving DecidableEq, Repr

/-- Mirror of `decipherV2Header` (decipher.go lines 359-400): seek to offset
16, stretch the password to 32 bytes, read 64 bytes (fewer is a decipher
error), decrypt them as four independent 16-byte blocks with the abstract AES
block decryptor `dec` applied to the stretched key, and split the plaintext
into ckey = bytes 8-39, iv = bytes 40-55, size = big-endian bytes 56-63. -/
def decipherV2Header (dec : List Nat → List Nat → List Nat)
    (password : List Nat) (stream : List Nat) : HeaderOutcome :=
  if password.length = 0 then .crashed
  else
    let inp := (stream.drop 16).take 64
    if inp.length < 64 then .failed
    else
      let key := stretchPassword password
      let out := ((List.range 4).map fun i => dec key ((inp.drop (16 * i)).take 16)).flatten
      .ok { ckey := (out.drop 8).take 32
            salt := (out.drop 40).take 16
            size := beUint64 ((out.drop 56).take 8) }

/-- Error kinds observable from the decipher routines: `errDecipher` is any
error wrapping `ErrDecipher`, `errOther` any other returned error (for
example a bare-wrapped seek error), `crash` a runtime crash. -/
inductive GoErr where
  | errDecipher
  | errOther
  | crash
deriving DecidableEq, Repr

/-- Returned value of the decipher routines: a byte count on success, an
error kind on failure. -/
inductive RetVal where
  | ok (n : Nat)
  | error (e : GoErr)
deriving DecidableEq, Repr

/-- Result of one run of `doDecipherV2` / `doDecipherOpenSSL`: whether a
temporary file was created, whether it was removed before returning, and the
returned (bytesWritten, error). -/
structure V2Result where
  tmpCreated : Bool
  tmpRemoved : Bool
  ret : RetVal
deriving DecidableEq, Repr

/-- Mirror of `doDecipherV2` (decipher.go lines 136-187).  The header is
deciphered with the process-wide global `password` (line 138), never with the
request password carried in the `Decipher` struct; `requestPassword` is an
explicit argument precisely to record that it is unused.  Effect parameters:
`tmpCreateOk` is whether `os.Create` of the temporary file succeeds,
`seekOk` whether `tmpFile.Seek(0,0)` succeeds, and `flate` maps the bytes in
the temporary file to (bytes copied by io.Copy through the flate reader,
error flag).  Note the source-level control flow faithfully kept here: in the
compressed branch the error of `doDecipher` is overwritten by the Seek result,
the Seek-failure branch returns without removing the temporary file, and the
final size comparison against header.size runs in the uncompressed branch as
well. -/
def doDecipherV2 (dec : List Nat → List Nat → List Nat)
    (globalPassword _requestPassword : List Nat) (stream : List Nat)
    (compressed tmpCreateOk seekOk : Bool)
    (flate : List Nat → Nat × Bool) : V2Result :=
  match decipherV2Header dec globalPassword stream with
  | .crashed => { tmpCreated := false, tmpRemoved := false, ret := .error GoErr.crash }
  | .failed => { tmpCreated := false, tmpRemoved := false, ret := .error GoErr.errDecipher }
  | .ok header =>
    if compressed ∧ ¬tmpCreateOk then
      { tmpCreated := false, tmpRemoved := false, ret := .error GoErr.errDecipher }
    else
      if compressed then
        if ¬seekOk then
          { tmpCreated := true, tmpRemoved := false, ret := .error GoErr.errOther }
        else
          if (flate (doDecipher (dec header.ckey) header.salt (stream.drop 80)).1).2 then
            { tmpCreated := true, tmpRemoved := true, ret := .error GoErr.errDecipher }
          else if (flate (doDecipher (dec header.ckey) header.salt (stream.drop 80)).1).1
              ≠ header.size then
            { tmpCreated := true, tmpRemoved := true, ret := .error GoErr.errDecipher }
          else
            { tmpCreated := true, tmpRemoved := true,
              ret := .ok (flate (doDecipher (dec header.ckey) header.salt (stream.drop 80)).1).1 }
      else
        if (doDecipher (dec header.ckey) header.salt (stream.drop 80)).2 then
          { tmpCreated := false, tmpRemoved := false, ret := .error GoErr.errDecipher }
        else if (doDecipher (dec header.ckey) header.salt (stream.drop 80)).1.length
            ≠ header.size then
          { tmpCreated := false, tmpRemoved := false, ret := .error GoErr.errDecipher }
        else
          { tmpCreated := false, tmpRemoved := false,
            ret := .ok (doDecipher (dec header.ckey) header.salt (stream.drop 80)).1.length }

/-- The digest loop of `EVPBytesToKey` (evb.go): each round digests
previous-digest ++ password ++ salt[0:8] (the first round has an empty
previous digest, matching the source where the mdBuf write is skipped in
round one), re-digests the output (count - 1) extra times, appends it to the
accumulator and stops as soon as `need` bytes are collected.  Structural fuel
recursion: `need` units of fuel suffice whenever every digest output is
nonempty (a digest producing no bytes would loop the Go code forever). -/
def EVPGo (H : List Nat → List Nat) (count : Nat) (data salt : List Nat) (need : Nat) :
    Nat → List Nat → List Nat → List Nat
  | 0, _, acc => acc
  | fuel + 1, prev, acc =>
    if need ≤ acc.length then acc
    else
      EVPGo H count data salt need fuel (H^[count - 1] (H (prev ++ data ++ salt.take 8)))
        (acc ++ H^[count - 1] (H (prev ++ data ++ salt.take 8)))

/-- Mirror of `EVPBytesToKey` (evb.go): the key is the first keyLen bytes of
the digest-chain concatenation and the IV the next ivLen bytes.  The
nil-data early return of the source is not modelled: the only caller passes
a non-nil byte slice. -/
def EVPBytesToKey (keyLen ivLen : Nat) (H : List Nat → List Nat) (count : Nat)
    (salt data : List Nat) : List (List Nat) :=
  [(EVPGo H count data salt (keyLen + ivLen) (keyLen + ivLen) [] []).take keyLen,
    ((EVPGo H count data salt (keyLen + ivLen) (keyLen + ivLen) [] []).drop keyLen).take ivLen]

/-- The content deciphering performed by `doDecipherOpenSSL` (decipher.go
line 226): key and IV come from `EVPBytesToKey` with 256-bit key length,
16-byte IV, the given digest, ITERATIONS = 1, the salt read from stream
bytes 8-15, and the request password `d.password`; the ciphertext body
starts at offset 16. -/
def opensslBody (dec : List Nat → List Nat → List Nat) (H : List Nat → List Nat)
    (requestPassword stream : List Nat) : List Nat × Bool :=
  doDecipher
    (dec ((EVPBytesToKey 32 16 H 1 ((stream.drop 8).take 8) requestPassword).headD []))
    (((EVPBytesToKey 32 16 H 1 ((stream.drop 8).take 8) requestPassword).drop 1).headD [])
    (stream.drop 16)

/-- Mirror of `doDecipherOpenSSL` (decipher.go lines 189-243).  Effect
parameters as in `doDecipherV2`; additionally `seekStartOk` is the initial
`cipherFile.Seek(8,0)`, and `bzip` maps the temporary-file bytes to the
result of io.Copy through the bzip2 reader.  The salt is bytes 8-15 of the
stream, key and IV come from `EVPBytesToKey` applied to the digest `H`, the
salt, and the request password (field `d.password`); the temporary file is
removed by a deferred call on every path after its creation, and no size
verification is performed. -/
def doDecipherOpenSSL (dec : List Nat → List Nat → List Nat)
    (H : List Nat → List Nat) (requestPassword : List Nat) (stream : List Nat)
    (seekStartOk tmpCreateOk seekOk : Bool)
    (bzip : List Nat → Nat × Bool) : V2Result :=
  if ¬seekStartOk then { tmpCreated := false, tmpRemoved := false, ret := .error GoErr.errOther }
  else
    if ((stream.drop 8).take 8).length < 8 then
      { tmpCreated := false, tmpRemoved := false, ret := .error GoErr.errDecipher }
    else
      if ¬tmpCreateOk then
        { tmpCreated := false, tmpRemoved := false, ret := .error GoErr.errDecipher }
      else
        if (opensslBody dec H requestPassword stream).2 then
          { tmpCreated := true, tmpRemoved := true, ret := .error GoErr.errDecipher }
        else if ¬seekOk then
          { tmpCreated := true, tmpRemoved := true, ret := .error GoErr.errOther }
        else
          if (bzip (opensslBody dec H requestPassword stream).1).2 then
            { tmpCreated := true, tmpRemoved := true, ret := .error GoErr.errDecipher }
          else
            { tmpCreated := true, tmpRemoved := true,
              ret := .ok (bzip (opensslBody dec H requestPassword stream).1).1 }

/- ------------------------------------------------------------------ -/
/- Helper lemmas -/
/- ------------------------------------------------------------------ -/

lemma checkCiphered_openssl (r : List Nat) :
    checkCipheredFile (OpenSSLPrefix ++ r) = { compressed := false, encryptVersion := 0 } := by
  have hlen : ¬ (OpenSSLPrefix ++ r).length < 8 := by
    simp [OpenSSLPrefix]
  have htake : (OpenSSLPrefix ++ r).take 8 = OpenSSLPrefix := by
    have h : (8 : Nat) = OpenSSLPrefix.length := rfl
    rw [h, List.take_left]
  unfold checkCipheredFile
  rw [if_neg hlen, htake, if_pos rfl]

lemma checkCiphered_v1 (r : List Nat) :
    checkCipheredFile (QNAPFilePrefixV1Bytes ++ r) = { compressed := false, encryptVersion := 1 } := by
  have hlen : ¬ (QNAPFilePrefixV1Bytes ++ r).length < 8 := by
    simp [QNAPFilePrefixV1Bytes]
  have htake : (QNAPFilePrefixV1Bytes ++ r).take 8 = QNAPFilePrefixV1Bytes := by
    have h : (8 : Nat) = QNAPFilePrefixV1Bytes.length := rfl
    rw [h, List.take_left]
  unfold checkCipheredFile
  rw [if_neg hlen, htake, if_neg (by decide), if_pos rfl]

lemma checkCiphered_v2 (b0 b1 : Nat) (r : List Nat) :
    checkCipheredFile (QNAPFilePrefixV2Bytes ++ b0 :: b1 :: r) =
      { compressed := decide (b1 = 1), encryptVersion := 2 } := by
  have hlen : ¬ (QNAPFilePrefixV2Bytes ++ b0 :: b1 :: r).length < 8 := by
    simp [QNAPFilePrefixV2Bytes]
  have hlen10 : ¬ (QNAPFilePrefixV2Bytes ++ b0 :: b1 :: r).length < 10 := by
    simp [QNAPFilePrefixV2Bytes]
  have htake : (QNAPFilePrefixV2Bytes ++ b0 :: b1 :: r).take 8 = QNAPFilePrefixV2Bytes := by
    have h : (8 : Nat) = QNAPFilePrefixV2Bytes.length := rfl
    rw [h, List.take_left]
  have hget : (QNAPFilePrefixV2Bytes ++ b0 :: b1 :: r).getD 9 0 = b1 := by
    have h := List.getD_append_right QNAPFilePrefixV2Bytes (b0 :: b1 :: r) 0 9 (by simp [QNAPFilePrefixV2Bytes])
    exact h.trans rfl
  unfold checkCipheredFile
  rw [if_neg hlen, htake, if_neg (by decide), if_neg (by decide), if_pos rfl, if_neg hlen10, hget]

lemma checkCiphered_short (s : List Nat) (h : s.length < 8) :
    checkCipheredFile s = { compressed := false, encryptVersion := -1 } := by
  simp [checkCipheredFile, h]

lemma checkCiphered_v2_short (s : List Nat) (hmagic : s.take 8 = QNAPFilePrefixV2Bytes)
    (hlen10 : s.length < 10) :
    checkCipheredFile s = { compressed := false, encryptVersion := -1 } := by
  have h8 : ¬ s.length < 8 := by
    have hlen := congrArg List.length hmagic
    simp only [List.length_take, QNAPFilePrefixV2Bytes, List.length_cons] at hlen
    omega
  unfold checkCipheredFile
  rw [if_neg h8, hmagic, if_neg (by decide), if_neg (by decide), if_pos rfl, if_pos hlen10]

lemma checkCiphered_other (s : List Nat) (h8 : 8 ≤ s.length) (h1 : s.take 8 ≠ OpenSSLPrefix)
    (h2 : s.take 8 ≠ QNAPFilePrefixV1Bytes) (h3 : s.take 8 ≠ QNAPFilePrefixV2Bytes) :
    checkCipheredFile s = { compressed := false, encryptVersion := -1 } := by
  simp [checkCipheredFile, h1, h2, h3, Nat.not_lt.mpr h8]

lemma route_of_unrecognized (s pw : List Nat) (h : (checkCipheredFile s).encryptVersion = -1) :
    DecipherFileRoute s pw = TopResult.noCipherFile := by
  simp [DecipherFileRoute, dispatch, h]

lemma flatten_replicate_length (n : Nat) (l : List Nat) :
    (List.replicate n l).flatten.length = n * l.length := by
  induction n with
  | zero => simp
  | succ n ih => simp [List.replicate_succ, ih, Nat.succ_mul]; ring

lemma stretchPassword_length (pw : List Nat) (hp : pw ≠ []) :
    (stretchPassword pw).length = 32 := by
  have hpos : 0 < pw.length := List.length_pos.mpr hp
  have h1 := Nat.div_add_mod 32 pw.length
  have h2 := Nat.mod_lt 32 hpos
  have hge : 32 ≤ (1 + 32 / pw.length) * pw.length := by
    have h3 : (1 + 32 / pw.length) * pw.length
        = pw.length + pw.length * (32 / pw.length) := by ring
    rw [h3]
    linarith
  simp [stretchPassword, flatten_replicate_length]
  omega

lemma cbcGo_nil (dec : List Nat → List Nat) (f : Nat) (prev : List Nat) :
    cbcGo dec f prev [] = ([], prev) := by
  cases f <;> rfl

lemma cbcGo_succ (dec : List Nat → List Nat) (f : Nat) (prev src : List Nat) :
    cbcGo dec (f + 1) prev src =
      if src = [] then ([], prev)
      else
        (List.zipWith Nat.xor (dec (src.take 16)) prev ++
            (cbcGo dec f (src.take 16) (src.drop 16)).1,
          (cbcGo dec f (src.take 16) (src.drop 16)).2) := rfl

lemma cbcGo_fuel (dec : List Nat → List Nat) :
    ∀ f g prev src, src.length ≤ f → src.length ≤ g →
      cbcGo dec f prev src = cbcGo dec g prev src := by
  intro f
  induction f with
  | zero =>
    intro g prev src hf _
    have hs : src = [] := List.length_eq_zero.mp (Nat.le_zero.mp hf)
    subst hs
    rw [cbcGo_nil, cbcGo_nil]
  | succ f ih =>
    intro g prev src hf hg
    rcases src with _ | ⟨a, as⟩
    · rw [cbcGo_nil, cbcGo_nil]
    · rcases g with _ | g
      · simp at hg
      · rw [cbcGo_succ, cbcGo_succ, if_neg (by simp), if_neg (by simp)]
        rw [ih g ((a :: as).take 16) ((a :: as).drop 16)
          (by simp only [List.length_drop, List.length_cons] at hf hg ⊢; omega)
          (by simp only [List.length_drop, List.length_cons] at hf hg ⊢; omega)]

lemma cbcBlocks_nil (dec : List Nat → List Nat) (prev : List Nat) :
    cbcBlocks dec prev [] = ([], prev) := rfl


lemma cbcBlocks_cons16 (dec : List Nat → List Nat) (prev src : List Nat) (h : src ≠ []) :
    cbcBlocks dec prev src =
      (List.zipWith Nat.xor (dec (src.take 16)) prev ++
          (cbcBlocks dec (src.take 16) (src.drop 16)).1,
        (cbcBlocks dec (src.take 16) (src.drop 16)).2) := by
  unfold cbcBlocks
  obtain ⟨m, hL⟩ : ∃ m, src.length = m + 1 :=
    ⟨src.length - 1, by have := List.length_pos.mpr h; omega⟩
  rw [show cbcGo dec src.length prev src = cbcGo dec (m + 1) prev src from by rw [hL]]
  rw [cbcGo_succ, if_neg h]
  rw [cbcGo_fuel dec m (src.drop 16).length (src.take 16) (src.drop 16)
    (by simp only [List.length_drop]; omega) (le_refl _)]

lemma cbcBlocks_append (dec : List Nat → List Nat) (s1 : List Nat) (h16 : s1.length % 16 = 0)
    (prev s2 : List Nat) :
    cbcBlocks dec prev (s1 ++ s2) =
      ((cbcBlocks dec prev s1).1 ++ (cbcBlocks dec (cbcBlocks dec prev s1).2 s2).1,
        (cbcBlocks dec (cbcBlocks dec prev s1).2 s2).2) := by
  suffices H : ∀ n (s1 : List Nat), s1.length = n → s1.length % 16 = 0 → ∀ prev s2,
      cbcBlocks dec prev (s1 ++ s2) =
        ((cbcBlocks dec prev s1).1 ++ (cbcBlocks dec (cbcBlocks dec prev s1).2 s2).1,
          (cbcBlocks dec (cbcBlocks dec prev s1).2 s2).2) by
    exact H s1.length s1 rfl h16 prev s2
  intro n
  induction n using Nat.strong_induction_on with
  | _ n ih =>
    intro s1 hn h16a prev s2
    by_cases hs : s1 = []
    · subst hs
      simp [cbcBlocks_nil]
    · have hpos := List.length_pos.mpr hs
      have h16le : 16 ≤ s1.length := by omega
      have hne : s1 ++ s2 ≠ [] := fun hc => hs (List.append_eq_nil.mp hc).1
      rw [cbcBlocks_cons16 dec prev _ hne, cbcBlocks_cons16 dec prev s1 hs]
      rw [List.take_append_of_le_length (by omega), List.drop_append_of_le_length (by omega)]
      rw [ih (s1.length - 16) (by omega) (s1.drop 16)
        (by simp only [List.length_drop]) (by simp only [List.length_drop]; omega)
        (s1.take 16) s2]
      simp [List.append_assoc]


lemma doDecipherGo_succ (dec : List Nat → List Nat) (f : Nat) (iv body : List Nat) :
    doDecipherGo dec (f + 1) iv body =
      if body.length = 0 then ([], true)
      else if body.length < 256 then
        if body.length % 16 ≠ 0 then ([], true)
        else
          match PKCS5Trimming (cbcBlocks dec iv body).1 16 with
          | none => ([], true)
          | some t => (t, false)
      else
        ((cbcBlocks dec iv (body.take 256)).1 ++
            (doDecipherGo dec f (cbcBlocks dec iv (body.take 256)).2 (body.drop 256)).1,
          (doDecipherGo dec f (cbcBlocks dec iv (body.take 256)).2 (body.drop 256)).2) := rfl

lemma doDecipherGo_fuel (dec : List Nat → List Nat) :
    ∀ f g iv body, body.length ≤ f → body.length ≤ g →
      doDecipherGo dec f iv body = doDecipherGo dec g iv body := by
  intro f
  induction f with
  | zero =>
    intro g iv body hf _
    have hs : body = [] := List.length_eq_zero.mp (Nat.le_zero.mp hf)
    subst hs
    cases g with
    | zero => rfl
    | succ g => rw [doDecipherGo_succ]; simp [doDecipherGo]
  | succ f ih =>
    intro g iv body hf hg
    rcases g with _ | g
    · have hs : body = [] := List.length_eq_zero.mp (Nat.le_zero.mp hg)
      subst hs
      rw [doDecipherGo_succ]; simp [doDecipherGo]
    · rw [doDecipherGo_succ, doDecipherGo_succ]
      by_cases h0 : body.length = 0
      · simp [h0]
      · by_cases hlt : body.length < 256
        · simp [h0, hlt]
        · simp only [h0, hlt, if_false]
          rw [ih g (cbcBlocks dec iv (body.take 256)).2 (body.drop 256)
            (by simp only [List.length_drop]; omega)
            (by simp only [List.length_drop]; omega)]

lemma doDecipher_eq_small (dec : List Nat → List Nat) (iv body : List Nat)
    (h0 : body.length ≠ 0) (hlt : body.length < 256) :
    doDecipher dec iv body =
      if body.length % 16 ≠ 0 then ([], true)
      else
        match PKCS5Trimming (cbcBlocks dec iv body).1 16 with
        | none => ([], true)
        | some t => (t, false) := by
  unfold doDecipher
  obtain ⟨m, hL⟩ : ∃ m, body.length = m + 1 := ⟨body.length - 1, by omega⟩
  rw [show doDecipherGo dec body.length iv body = doDecipherGo dec (m + 1) iv body from by
    rw [hL]]
  rw [doDecipherGo_succ, if_neg h0, if_pos hlt]

lemma doDecipher_eq_big (dec : List Nat → List Nat) (iv body : List Nat)
    (hge : 256 ≤ body.length) :
    doDecipher dec iv body =
      ((cbcBlocks dec iv (body.take 256)).1 ++
          (doDecipher dec (cbcBlocks dec iv (body.take 256)).2 (body.drop 256)).1,
        (doDecipher dec (cbcBlocks dec iv (body.take 256)).2 (body.drop 256)).2) := by
  unfold doDecipher
  obtain ⟨m, hL⟩ : ∃ m, body.length = m + 1 := ⟨body.length - 1, by omega⟩
  rw [show doDecipherGo dec body.length iv body = doDecipherGo dec (m + 1) iv body from by
    rw [hL]]
  rw [doDecipherGo_succ, if_neg (by omega), if_neg (by omega)]
  rw [doDecipherGo_fuel dec m (body.drop 256).length (cbcBlocks dec iv (body.take 256)).2
    (body.drop 256) (by simp only [List.length_drop]; omega) (le_refl _)]


lemma doDecipher_char_aux (dec : List Nat → List Nat) :
    ∀ n iv body, body.length ≤ n →
      (((doDecipher dec iv body).2 = false ↔
        (body.length % 256 ≠ 0 ∧ body.length % 16 = 0 ∧
          (PKCS5Trimming (cbcBlocks dec
            (cbcBlocks dec iv (body.take (256 * (body.length / 256)))).2
            (body.drop (256 * (body.length / 256)))).1 16).isSome = true)) ∧
      ((doDecipher dec iv body).2 = false →
        (doDecipher dec iv body).1 =
          (cbcBlocks dec iv (body.take (256 * (body.length / 256)))).1 ++
            (PKCS5Trimming (cbcBlocks dec
              (cbcBlocks dec iv (body.take (256 * (body.length / 256)))).2
              (body.drop (256 * (body.length / 256)))).1 16).getD [])) := by
  intro n
  induction n using Nat.strong_induction_on with
  | _ n ih =>
    intro iv body hb
    by_cases h0 : body.length = 0
    · have hbody : body = [] := List.length_eq_zero.mp h0
      subst hbody
      simp [doDecipher, doDecipherGo]
    · by_cases hlt : body.length < 256
      · have hdiv : body.length / 256 = 0 := Nat.div_eq_of_lt hlt
        have hmod : body.length % 256 = body.length := Nat.mod_eq_of_lt hlt
        rw [doDecipher_eq_small dec iv body h0 hlt, hdiv, hmod]
        simp only [Nat.mul_zero, List.take_zero, List.drop_zero, cbcBlocks_nil]
        by_cases h16 : body.length % 16 = 0
        · simp only [h16, ne_eq, not_true_eq_false, if_false]
          cases htr : PKCS5Trimming (cbcBlocks dec iv body).1 16 with
          | none => simp [htr, h0]
          | some t => simp [htr, h0, h16]
        · simp [h16]
      · push_neg at hlt
        rw [doDecipher_eq_big dec iv body hlt]
        have e1 : (body.drop 256).length = body.length - 256 := by
          simp only [List.length_drop]
        have e2 : (body.length - 256) % 256 = body.length % 256 := by omega
        have e3 : (body.length - 256) % 16 = body.length % 16 := by omega
        have e4 : 256 * (body.length / 256) = 256 + 256 * ((body.length - 256) / 256) := by
          omega
        have e5 : body.take (256 * (body.length / 256)) =
            body.take 256 ++ (body.drop 256).take (256 * ((body.length - 256) / 256)) := by
          rw [e4, List.take_add]
        have e6 : body.drop (256 * (body.length / 256)) =
            (body.drop 256).drop (256 * ((body.length - 256) / 256)) := by
          rw [List.drop_drop, e4]
        have h256 : (body.take 256).length = 256 := by
          simp only [List.length_take]
          omega
        obtain ⟨ihiff, ihemit⟩ := ih (body.length - 256) (by omega)
          (cbcBlocks dec iv (body.take 256)).2 (body.drop 256) (by rw [e1])
        rw [e1] at ihiff ihemit
        rw [e2, e3] at ihiff
        rw [e5, e6, cbcBlocks_append dec (body.take 256) (by rw [h256]) iv]
        constructor
        · constructor
          · intro h
            exact ihiff.mp h
          · intro h
            exact ihiff.mpr h
        · intro h
          have := ihemit (by exact h)
          simp only [this, List.append_assoc]

lemma flatten_replicate_getD (l : List Nat) (n i : Nat) (h : i < n * l.length) :
    (List.replicate n l).flatten.getD i 0 = l.getD (i % l.length) 0 := by
  induction n generalizing i with
  | zero => simp at h
  | succ n ih =>
    have hl : 0 < l.length := by
      rcases Nat.eq_zero_or_pos l.length with h0 | h0
      · rw [h0] at h; simp at h
      · exact h0
    rw [List.replicate_succ, List.flatten_cons]
    by_cases hi : i < l.length
    · rw [List.getD_append _ _ _ _ hi, Nat.mod_eq_of_lt hi]
    · push_neg at hi
      rw [List.getD_append_right _ _ _ _ hi]
      have hmul : (n + 1) * l.length = n * l.length + l.length := by ring
      have hlt : i - l.length < n * l.length := by omega
      rw [ih _ hlt, Nat.mod_eq_sub_mod hi]

/-- The stretched key repeats the password bytes end-to-end. -/
lemma stretchPassword_getD (pw : List Nat) (hp : pw ≠ []) (i : Nat) (hi : i < 32) :
    (stretchPassword pw).getD i 0 = pw.getD (i % pw.length) 0 := by
  have hpos : 0 < pw.length := List.length_pos.mpr hp
  have h1 := Nat.div_add_mod 32 pw.length
  have h2 := Nat.mod_lt 32 hpos
  have hge : 32 ≤ (1 + 32 / pw.length) * pw.length := by
    have h3 : (1 + 32 / pw.length) * pw.length
        = pw.length + pw.length * (32 / pw.length) := by ring
    rw [h3]
    linarith
  unfold stretchPassword
  rw [show ((List.replicate (1 + 32 / pw.length) pw).flatten.take 32).getD i 0
      = (List.replicate (1 + 32 / pw.length) pw).flatten.getD i 0 by
    simp [List.getD, List.getElem?_take_of_lt hi]]
  exact flatten_replicate_getD pw _ i (by omega)

/-- The 64-byte plaintext header obtained by decrypting the four 16-byte
blocks of the encrypted header independently with the stretched key. -/
def v2HeaderPlain (dec : List Nat → List Nat → List Nat) (pw stream : List Nat) : List Nat :=
  ((List.range 4).map fun i =>
    dec (stretchPassword pw) ((((stream.drop 16).take 64).drop (16 * i)).take 16)).flatten

/- ------------------------------------------------------------------ -/
/- Claim C8: v2 header derivation -/
/- ------------------------------------------------------------------ -/

/-- Claim C8: for a non-empty password and a stream of at least 80 bytes,
the header derivation succeeds and returns contentKey = plaintext bytes 8-39,
contentIV = bytes 40-55 and expectedPlainSize = big-endian bytes 56-63 of the
64-byte plaintext obtained by decrypting four independent 16-byte blocks with
the stretched key; the stretched key is the end-to-end repetition of the
password truncated to exactly 32 bytes, and the size field is read big-endian. -/
theorem decipherV2Header_spec (dec : List Nat → List Nat → List Nat)
    (pw stream : List Nat) (hpw : pw ≠ []) (hs : 80 ≤ stream.length) :
    decipherV2Header dec pw stream =
      HeaderOutcome.ok
        { size := beUint64 (((v2HeaderPlain dec pw stream).drop 56).take 8)
          ckey := ((v2HeaderPlain dec pw stream).drop 8).take 32
          salt := ((v2HeaderPlain dec pw stream).drop 40).take 16 } ∧
    (stretchPassword pw).length = 32 ∧
    (∀ i, i < 32 → (stretchPassword pw).getD i 0 = pw.getD (i % pw.length) 0) ∧
    (∀ b0 b1 b2 b3 b4 b5 b6 b7 : Nat,
      beUint64 [b0, b1, b2, b3, b4, b5, b6, b7] =
        ((((((b0 * 256 + b1) * 256 + b2) * 256 + b3) * 256 + b4) * 256 + b5) * 256 + b6)
          * 256 + b7) := by
  refine ⟨?_, stretchPassword_length pw hpw, stretchPassword_getD pw hpw, ?_⟩
  · have hinp : ((stream.drop 16).take 64).length = 64 := by
      simp [List.length_take, List.length_drop]
      omega
    unfold decipherV2Header
    split
    next h => exact absurd (List.length_eq_zero.mp h) hpw
    next =>
      simp only [hinp]
      rw [if_neg (by omega)]
      rfl
  · intro b0 b1 b2 b3 b4 b5 b6 b7
    simp [beUint64]

/-- Witness for C8 at a concrete password and stream. -/
theorem decipherV2Header_spec_witness :
    decipherV2Header (fun _ b => b) [1] (List.replicate 80 0) =
      HeaderOutcome.ok { size := 0, ckey := List.replicate 32 0, salt := List.replicate 16 0 } := by
  have h := (decipherV2Header_spec (fun _ b => b) [1] (List.replicate 80 0)
    (by decide) (by decide)).1
  exact h.trans (by decide)

/- ------------------------------------------------------------------ -/
/- Claim C1: padding removal -/
/- ------------------------------------------------------------------ -/

/-- Counterexample to claim C1: a final decrypted chunk whose last byte is 0
is NOT rejected by `PKCS5Trimming`; the code strips zero bytes and returns
the chunk unchanged, because the check is only p >= len or p > blockSize. -/
theorem PKCS5Trimming_zero_padding_accepted :
    (List.replicate 16 0).getLastD 0 = 0 ∧
    PKCS5Trimming (List.replicate 16 0) 16 = some (List.replicate 16 0) := by
  decide

/-- Claim C1 (amended): for a non-empty decrypted chunk, `PKCS5Trimming`
fails exactly when the padding length p (the last byte) is at least the chunk
length or exceeds the block size 16; a padding length of 0 is accepted and
strips nothing; whenever the checks pass the last p bytes are stripped. -/
theorem PKCS5Trimming_spec (src : List Nat) (_h : src ≠ []) :
    (PKCS5Trimming src 16 = none ↔
      src.length ≤ src.getLastD 0 ∨ 16 < src.getLastD 0) ∧
    (src.getLastD 0 < src.length → src.getLastD 0 ≤ 16 →
      PKCS5Trimming src 16 = some (src.take (src.length - src.getLastD 0))) := by
  unfold PKCS5Trimming
  split
  next hc =>
    exact ⟨⟨fun _ => hc, fun _ => rfl⟩, fun h1 h2 => by omega⟩
  next hc =>
    push_neg at hc
    refine ⟨⟨fun hs => by simp at hs, fun hp => by omega⟩, fun _ _ => rfl⟩

/-- Witness for C1: a concrete chunk with padding length 4 is trimmed. -/
theorem PKCS5Trimming_spec_witness :
    PKCS5Trimming (List.replicate 15 0 ++ [4]) 16 = some (List.replicate 12 0) := by
  have h := (PKCS5Trimming_spec (List.replicate 15 0 ++ [4]) (by decide)).2
    (by decide) (by decide)
  exact h.trans (by decide)

/- ------------------------------------------------------------------ -/
/- Claim C2: the streaming decrypt loop -/
/- ------------------------------------------------------------------ -/

set_option maxRecDepth 10000 in
/-- Counterexample to claim C2: a ciphertext body of exactly 256 bytes whose
final decrypted block carries valid trailing padding (last decrypted byte 1,
so trimming the final decrypted block succeeds) still makes `doDecipher`
fail: after emitting the full 256-byte chunk, the next read returns a clean
end-of-stream and the loop turns every read error, end-of-stream included,
into a decipher error. -/
theorem doDecipher_fails_on_exact_256_multiple :
    (List.replicate 255 0 ++ [1]).length = 256 ∧
    (PKCS5Trimming (((cbcBlocks (fun c => c) (List.replicate 16 0)
        (List.replicate 255 0 ++ [1])).1).drop 240) 16).isSome = true ∧
    (doDecipher (fun c => c) (List.replicate 16 0) (List.replicate 255 0 ++ [1])).2 = true := by
  decide

/-- Claim C2 (amended): the streaming decrypt reads the body in 256-byte
chunks and emits every full chunk decrypted, but a body whose length is a
multiple of 256 (the final read returning a clean end-of-stream) is a fatal
decipher error; `doDecipher` succeeds exactly when the body length is a
multiple of 16 that is not a multiple of 256 and the final partial chunk
decrypts to valid trailing padding, in which case it emits the full chunks'
plaintext followed by the unpadded final chunk. -/
theorem doDecipher_success_characterization (dec : List Nat → List Nat) (iv body : List Nat) :
    ((doDecipher dec iv body).2 = false ↔
      (body.length % 256 ≠ 0 ∧ body.length % 16 = 0 ∧
        (PKCS5Trimming (cbcBlocks dec
          (cbcBlocks dec iv (body.take (256 * (body.length / 256)))).2
          (body.drop (256 * (body.length / 256)))).1 16).isSome = true)) ∧
    ((doDecipher dec iv body).2 = false →
      (doDecipher dec iv body).1 =
        (cbcBlocks dec iv (body.take (256 * (body.length / 256)))).1 ++
          (PKCS5Trimming (cbcBlocks dec
            (cbcBlocks dec iv (body.take (256 * (body.length / 256)))).2
            (body.drop (256 * (body.length / 256)))).1 16).getD []) :=
  doDecipher_char_aux dec body.length iv body (le_refl _)

set_option maxRecDepth 10000 in
/-- Witness for C2: a 16-byte body with padding length 1 deciphers to its
first 15 plaintext bytes. -/
theorem doDecipher_success_characterization_witness :
    (doDecipher (fun c => c) (List.replicate 16 0) (List.replicate 15 0 ++ [1])).1 =
      List.replicate 15 0 := by
  have h := (doDecipher_success_characterization (fun c => c) (List.replicate 16 0)
    (List.replicate 15 0 ++ [1])).2 (by decide)
  exact h.trans (by decide)

/- ------------------------------------------------------------------ -/
/- Claim C3: output file creation -/
/- ------------------------------------------------------------------ -/

/-- Counterexample to claim C3: a LegacyV1 input is rejected as unsupported,
yet `DecipherFile` creates the plain output file for it, because the output
is created for every encrypt version >= 0 and LegacyV1 has version 1. -/
theorem DecipherFile_creates_output_for_v1 :
    checkCipheredFile QNAPFilePrefixV1Bytes = { compressed := false, encryptVersion := 1 } ∧
    dispatch { compressed := false, encryptVersion := 1 } = TopResult.unsupportedV1 ∧
    opensPlainFile { compressed := false, encryptVersion := 1 } = true := by
  decide

/-- Claim C3 (amended): `DecipherFile` creates/opens the output file exactly
for the recognized formats (encrypt version different from -1), which
includes the rejected LegacyV1 format; only Unrecognized inputs avoid output
creation.  In particular every LegacyV1-magic stream gets an output file. -/
theorem opensPlainFile_iff_recognized :
    (∀ s : List Nat, opensPlainFile (checkCipheredFile s) = true ↔
      ¬((checkCipheredFile s).encryptVersion = -1)) ∧
    (∀ r : List Nat, opensPlainFile (checkCipheredFile (QNAPFilePrefixV1Bytes ++ r)) = true) := by
  constructor
  · intro s
    unfold checkCipheredFile
    split
    · simp [opensPlainFile]
    split
    · simp [opensPlainFile]
    split
    · simp [opensPlainFile]
    split
    · split
      · simp [opensPlainFile]
      · simp [opensPlainFile]
    · simp [opensPlainFile]
  · intro r
    rw [checkCiphered_v1]
    rfl

/- ------------------------------------------------------------------ -/
/- Claim C7: format detection -/
/- ------------------------------------------------------------------ -/

/-- Claim C7: classification of every input stream from its leading bytes,
and the NotCipheredFile outcome for every unrecognized input, independent of
the password. -/
theorem checkCipheredFile_classification :
    (∀ r : List Nat, checkCipheredFile (OpenSSLPrefix ++ r) =
      { compressed := false, encryptVersion := 0 }) ∧
    (∀ r : List Nat, checkCipheredFile (QNAPFilePrefixV1Bytes ++ r) =
      { compressed := false, encryptVersion := 1 }) ∧
    (∀ (b0 b1 : Nat) (r : List Nat), checkCipheredFile (QNAPFilePrefixV2Bytes ++ b0 :: b1 :: r) =
      { compressed := decide (b1 = 1), encryptVersion := 2 }) ∧
    (∀ s : List Nat, s.length < 8 → checkCipheredFile s =
      { compressed := false, encryptVersion := -1 }) ∧
    (∀ s : List Nat, s.take 8 = QNAPFilePrefixV2Bytes → s.length < 10 →
      checkCipheredFile s = { compressed := false, encryptVersion := -1 }) ∧
    (∀ s : List Nat, 8 ≤ s.length → s.take 8 ≠ OpenSSLPrefix →
      s.take 8 ≠ QNAPFilePrefixV1Bytes → s.take 8 ≠ QNAPFilePrefixV2Bytes →
      checkCipheredFile s = { compressed := false, encryptVersion := -1 }) ∧
    (∀ s pw : List Nat, (checkCipheredFile s).encryptVersion = -1 →
      DecipherFileRoute s pw = TopResult.noCipherFile) :=
  ⟨checkCiphered_openssl, checkCiphered_v1, checkCiphered_v2, checkCiphered_short,
    checkCiphered_v2_short, checkCiphered_other, route_of_unrecognized⟩

/-- Witness for C7, instantiating every clause at concrete inputs, among
them a stream that is exactly the 8-byte v2 magic and a 9-byte v2-magic
stream. -/
theorem checkCipheredFile_classification_witness :
    checkCipheredFile (QNAPFilePrefixV2Bytes ++ 0 :: 1 :: [7, 7]) =
      { compressed := true, encryptVersion := 2 } ∧
    checkCipheredFile [83, 97, 108] = { compressed := false, encryptVersion := -1 } ∧
    checkCipheredFile QNAPFilePrefixV2Bytes = { compressed := false, encryptVersion := -1 } ∧
    checkCipheredFile (QNAPFilePrefixV2Bytes ++ [5]) =
      { compressed := false, encryptVersion := -1 } ∧
    checkCipheredFile [1, 2, 3, 4, 5, 6, 7, 8, 9, 10] =
      { compressed := false, encryptVersion := -1 } ∧
    DecipherFileRoute [1, 2, 3, 4, 5, 6, 7, 8, 9, 10] [1, 2, 3] = TopResult.noCipherFile := by
  refine ⟨(checkCipheredFile_classification.2.2.1 0 1 [7, 7]).trans (by decide),
    checkCipheredFile_classification.2.2.2.1 [83, 97, 108] (by decide),
    checkCipheredFile_classification.2.2.2.2.1 QNAPFilePrefixV2Bytes (by decide) (by decide),
    checkCipheredFile_classification.2.2.2.2.1 (QNAPFilePrefixV2Bytes ++ [5])
      (by decide) (by decide),
    checkCipheredFile_classification.2.2.2.2.2.1 [1, 2, 3, 4, 5, 6, 7, 8, 9, 10]
      (by decide) (by decide) (by decide) (by decide),
    checkCipheredFile_classification.2.2.2.2.2.2 [1, 2, 3, 4, 5, 6, 7, 8, 9, 10] [1, 2, 3] ?_⟩
  decide

/- ------------------------------------------------------------------ -/
/- Claim C9: which password each path uses -/
/- ------------------------------------------------------------------ -/

/-- Claim C9: the VersionedV2 path is a function of the global password
only — its result is identical for any two request passwords — while the
GenericSalted (OpenSSL) path keys off the request password: two runs on the
same stream with the same global state but different request passwords can
differ. -/
theorem password_source_spec :
    (∀ (dec : List Nat → List Nat → List Nat) (g p q stream : List Nat)
      (compressed tc sk : Bool) (flate : List Nat → Nat × Bool),
      doDecipherV2 dec g p stream compressed tc sk flate =
        doDecipherV2 dec g q stream compressed tc sk flate) ∧
    doDecipherOpenSSL (fun k _ => List.replicate 15 0 ++ [k.headD 0])
        (fun l => (l ++ List.replicate 16 0).take 16) [1] (List.replicate 32 0)
        true true true (fun l => (l.headD 0, false)) ≠
      doDecipherOpenSSL (fun k _ => List.replicate 15 0 ++ [k.headD 0])
        (fun l => (l ++ List.replicate 16 0).take 16) [2] (List.replicate 32 0)
        true true true (fun l => (l.headD 0, false)) := by
  exact ⟨fun dec g p q stream compressed tc sk flate => rfl, by decide⟩

/- ------------------------------------------------------------------ -/
/- Claim C4: temporary-file removal -/
/- ------------------------------------------------------------------ -/

/-- Counterexample to claim C4: in the VersionedV2 compressed path, when the
Seek on the temporary file fails after deciphering, `doDecipherV2` returns
without removing the temporary file it created. -/
theorem doDecipherV2_tmp_left_on_seek_failure :
    doDecipherV2 (fun _ b => b) [1] [9] (List.replicate 80 0) true true false
        (fun l => (l.length, false)) =
      { tmpCreated := true, tmpRemoved := false, ret := RetVal.error GoErr.errOther } := by
  decide

/-- Claim C4 (amended): a temporary file created by `doDecipherV2` is removed
before returning exactly when the Seek on it succeeds — the Seek-failure exit
path leaks it — while `doDecipherOpenSSL` removes its temporary file on every
exit path after creation (deferred removal). -/
theorem tmpfile_removal_spec :
    (∀ (dec : List Nat → List Nat → List Nat) (g r stream : List Nat)
      (compressed tc sk : Bool) (flate : List Nat → Nat × Bool),
      (doDecipherV2 dec g r stream compressed tc sk flate).tmpCreated = true →
      (doDecipherV2 dec g r stream compressed tc sk flate).tmpRemoved = sk) ∧
    (∀ (dec : List Nat → List Nat → List Nat) (H : List Nat → List Nat)
      (r stream : List Nat) (s8 tc sk : Bool) (bz : List Nat → Nat × Bool),
      (doDecipherOpenSSL dec H r stream s8 tc sk bz).tmpCreated = true →
      (doDecipherOpenSSL dec H r stream s8 tc sk bz).tmpRemoved = true) := by
  constructor
  · intro dec g r stream compressed tc sk flate
    unfold doDecipherV2
    cases decipherV2Header dec g stream with
    | crashed => simp
    | failed => simp
    | ok header => (repeat' split) <;> intro h <;> simp_all
  · intro dec H r stream s8 tc sk bz
    unfold doDecipherOpenSSL
    (repeat' split) <;> intro h <;> simp_all

set_option maxHeartbeats 1000000 in
/-- Witness for C4: a compressed run whose Seek succeeds removes the
temporary file, and an OpenSSL run removes it as well. -/
theorem tmpfile_removal_spec_witness :
    (doDecipherV2 (fun _ b => b) [1] [9] (List.replicate 80 0) true true true
      (fun l => (l.length, false))).tmpRemoved = true ∧
    (doDecipherOpenSSL (fun _ b => b) (fun l => (l ++ List.replicate 16 0).take 16)
      [1] (List.replicate 32 0) true true true (fun l => (l.length, false))).tmpRemoved = true :=
  by
  constructor
  · exact tmpfile_removal_spec.1 (fun _ b => b) [1] [9] (List.replicate 80 0) true true true
      (fun l => (l.length, false)) (by decide)
  · exact tmpfile_removal_spec.2 (fun _ b => b) (fun l => (l ++ List.replicate 16 0).take 16)
      [1] (List.replicate 32 0) true true true (fun l => (l.length, false)) (by decide)

/- ------------------------------------------------------------------ -/
/- Claim C5: uncompressed v2 path -/
/- ------------------------------------------------------------------ -/

/-- Counterexample to claim C5: an uncompressed VersionedV2 run whose
deciphering succeeds (error flag false) with 15 emitted bytes still fails
with a decipher error, because the emitted byte count 15 differs from the
header's expected plain size 0 — success does depend on the size comparison. -/
theorem doDecipherV2_uncompressed_size_check_enforced :
    (doDecipher (fun b => b) (List.replicate 16 0) (List.replicate 15 0 ++ [1])).2 = false ∧
    (doDecipher (fun b => b) (List.replicate 16 0) (List.replicate 15 0 ++ [1])).1.length = 15 ∧
    doDecipherV2 (fun _ b => b) [1] [9]
        (List.replicate 80 0 ++ (List.replicate 15 0 ++ [1])) false true true
        (fun l => (l.length, false)) =
      { tmpCreated := false, tmpRemoved := false, ret := RetVal.error GoErr.errDecipher } := by
  refine ⟨by decide, by decide, by decide⟩

/-- Claim C5 (amended): for an uncompressed VersionedV2 input the decrypted
bytes go directly to the final destination — no temporary file is created —
but the operation still verifies the emitted byte count against the header's
expected plain size: it succeeds exactly when they are equal and returns a
decipher error otherwise. -/
theorem doDecipherV2_uncompressed_spec (dec : List Nat → List Nat → List Nat)
    (g r stream : List Nat) (tc sk : Bool) (flate : List Nat → Nat × Bool)
    (hd : encryptHeader) (w : List Nat)
    (hh : decipherV2Header dec g stream = HeaderOutcome.ok hd)
    (hw : doDecipher (dec hd.ckey) hd.salt (stream.drop 80) = (w, false)) :
    doDecipherV2 dec g r stream false tc sk flate =
      { tmpCreated := false, tmpRemoved := false,
        ret := if w.length = hd.size then RetVal.ok w.length
          else RetVal.error GoErr.errDecipher } := by
  unfold doDecipherV2
  rw [hh]
  by_cases hsz : w.length = hd.size
  · simp [hw, hsz]
  · simp [hw, hsz]

/-- Witness for C5 at a concrete matching run (empty body, size 0). -/
theorem doDecipherV2_uncompressed_spec_witness :
    doDecipherV2 (fun _ b => b) [1] [9] (List.replicate 96 0) false true true
        (fun l => (l.length, false)) =
      { tmpCreated := false, tmpRemoved := false, ret := RetVal.error GoErr.errDecipher } := by
  have h := doDecipherV2_uncompressed_spec (fun _ b => b) [1] [9] (List.replicate 96 0)
    true true (fun l => (l.length, false))
    { size := 0, ckey := List.replicate 32 0, salt := List.replicate 16 0 }
    (List.replicate 16 0) (by decide) (by decide)
  exact h.trans (by decide)

/- ------------------------------------------------------------------ -/
/- Claim C6: compressed v2 size verification -/
/- ------------------------------------------------------------------ -/

/-- Claim C6: for a compressed VersionedV2 run in which decompression
succeeds and copies n bytes, the operation succeeds returning n exactly when
n equals the header's expected plain size, and fails with a decipher error
whenever it differs. -/
theorem doDecipherV2_compressed_size_verification (dec : List Nat → List Nat → List Nat)
    (g r stream : List Nat) (flate : List Nat → Nat × Bool)
    (hd : encryptHeader) (n : Nat)
    (hh : decipherV2Header dec g stream = HeaderOutcome.ok hd)
    (hf : flate (doDecipher (dec hd.ckey) hd.salt (stream.drop 80)).1 = (n, false)) :
    doDecipherV2 dec g r stream true true true flate =
      { tmpCreated := true, tmpRemoved := true,
        ret := if n = hd.size then RetVal.ok n
          else RetVal.error GoErr.errDecipher } := by
  unfold doDecipherV2
  rw [hh]
  by_cases hsz : n = hd.size
  · simp [hf, hsz]
  · simp [hf, hsz]

/-- Witness for C6 at a concrete run whose decompressed count matches. -/
theorem doDecipherV2_compressed_size_verification_witness :
    doDecipherV2 (fun _ b => b) [1] [9] (List.replicate 80 0) true true true
        (fun l => (l.length, false)) =
      { tmpCreated := true, tmpRemoved := true, ret := RetVal.ok 0 } := by
  have h := doDecipherV2_compressed_size_verification (fun _ b => b) [1] [9]
    (List.replicate 80 0) (fun l => (l.length, false))
    { size := 0, ckey := List.replicate 32 0, salt := List.replicate 16 0 } 0
    (by decide) (by decide)
  exact h.trans (by decide)

/- ------------------------------------------------------------------ -/
/- Claim C10: key stretch totality and the empty-password crash -/
/- ------------------------------------------------------------------ -/

/-- Claim C10: the key-stretch step of the v2 header derivation divides by
the password length, so an empty password crashes the process (modelled as
`none` and as `HeaderOutcome.crashed`) instead of returning an error value;
for every non-empty password the step is total and yields exactly 32 bytes. -/
theorem keyStretch_spec :
    keyStretch [] = none ∧
    (∀ dec stream, decipherV2Header dec [] stream = HeaderOutcome.crashed) ∧
    (∀ pw : List Nat, pw ≠ [] → ∃ k, keyStretch pw = some k ∧ k.length = 32) := by
  refine ⟨rfl, fun dec stream => rfl, fun pw hp => ?_⟩
  refine ⟨stretchPassword pw, ?_, stretchPassword_length pw hp⟩
  simp [keyStretch, List.length_eq_zero.not.mpr hp]

/-- Witness for C10 at the one-byte password [97]. -/
theorem keyStretch_spec_witness :
    ∃ k, keyStretch [97] = some k ∧ k.length = 32 :=
  keyStretch_spec.2.2 [97] (by decide)

end Hbs
